import Mathlib

/-!
# APS3200 APU turbine and generator model — verification development

Shallow embedding of `src/systems/systems/src/apu/aps3200.rs` over ℚ.
All `f64` quantities are modelled as exact rationals; the decimal literals of
the source become the corresponding rational constants, and `f64::EPSILON`
becomes the exact value `2⁻⁵²`.  Code that can panic is modelled with
`Option`, `none` standing for an abort.  The process-wide pseudo-random
source is modelled by threading explicit oracle arguments (a natural number
per draw) through the functions that consume randomness.
-/

namespace APS3200

/-- Exact value of `f64::EPSILON` (2⁻⁵²), used by the source for float
comparisons. -/
def epsF : ℚ := 1 / 2 ^ 52

/-- Modelled from the spec: `calculate_towards_target_temperature` lives in the
shared module, outside the provided source.  The spec (§4.1 Ambient Convergence
Function) describes it as a first-order-lag approach: the temperature moves a
fraction of the remaining gap toward the target, the rate being proportional to
the remaining difference and the coefficient.  We discretise one tick of that
law, capping the fraction at 1 so the value never overshoots the target. -/
def calculate_towards_target_temperature (current target coefficient delta : ℚ) : ℚ :=
  current + (target - current) * min (coefficient * delta) 1

/-- Embeds `calculate_towards_ambient_egt` from the source: convergence of the EGT
toward ambient temperature with coefficient 1. -/
def calculate_towards_ambient_egt (current_egt delta ambient_temperature : ℚ) : ℚ :=
  calculate_towards_target_temperature current_egt ambient_temperature 1 delta

/-- Modelled from the spec: `TimedRandom` lives in the shared module, outside
the provided source.  The spec (§4.2 Periodic Jitter Sampler) describes it as
holding a resample interval, an ordered candidate set, an accumulator of
elapsed time and the currently selected value; `update` accumulates elapsed
time and, once the accumulator reaches the interval, selects a candidate by a
uniform random index and resets the accumulator (at most one resample per
call); before the first resample the value is an implementation-defined
initial candidate, modelled as the first one. -/
structure TimedRandom where
  interval : ℚ
  candidates : List ℚ
  accumulator : ℚ
  value : ℚ
  deriving DecidableEq, Repr

def TimedRandom.new (interval : ℚ) (candidates : List ℚ) : TimedRandom :=
  { interval := interval
    candidates := candidates
    accumulator := 0
    value := candidates.headD 0 }

/-- One tick of the sampler; `ridx` is the oracle for the uniform random index
selection. -/
def TimedRandom.update (t : TimedRandom) (delta : ℚ) (ridx : ℕ) : TimedRandom :=
  let acc := t.accumulator + delta
  if t.interval ≤ acc then
    { t with
      accumulator := 0
      value := t.candidates.getD (ridx % t.candidates.length) t.value }
  else
    { t with accumulator := acc }

def TimedRandom.current_value (t : TimedRandom) : ℚ :=
  t.value

/-- The `Potential` enumeration of the electrical module, restricted to the two
constructors this file uses. -/
inductive Potential where
  | none
  | apuGenerator (number : ℕ)
  deriving DecidableEq, Repr

/-- Embeds `Potential::is_powered`: any output other than `None` is powered. -/
def Potential.is_powered : Potential → Bool
  | Potential.none => false
  | Potential.apuGenerator _ => true

/-- Embeds `Aps3200ApuGenerator` (the telemetry writer field is out of scope). -/
structure Aps3200ApuGenerator where
  number : ℕ
  output : Potential
  random_voltage : TimedRandom
  current : ℚ
  potential : ℚ
  frequency : ℚ
  deriving DecidableEq, Repr

/-- Embeds `Aps3200ApuGenerator::APU_GEN_POWERED_N`. -/
def Aps3200ApuGenerator.APU_GEN_POWERED_N : ℚ := 84

def Aps3200ApuGenerator.new (number : ℕ) : Aps3200ApuGenerator :=
  { number := number
    output := Potential.none
    random_voltage := TimedRandom.new 1 [114, 115, 115, 115, 115]
    current := 0
    potential := 0
    frequency := 0 }

def Aps3200ApuGenerator.is_powered (g : Aps3200ApuGenerator) : Bool :=
  g.output.is_powered

/-- Embeds `Aps3200ApuGenerator::calculate_potential`; the source panics for
`n < 84`, modelled as `none`. -/
def Aps3200ApuGenerator.calculate_potential (g : Aps3200ApuGenerator) (n : ℚ) : Option ℚ :=
  if n < Aps3200ApuGenerator.APU_GEN_POWERED_N then
    none
  else if n < 85 then
    some 105
  else
    some g.random_voltage.current_value

/-- The 13-degree frequency ramp polynomial of
`Aps3200ApuGenerator::calculate_frequency` (coefficients
`APU_FREQ_CONST` … `APU_FREQ_X13`). -/
def apuFreqPoly (n : ℚ) : ℚ :=
  1076894372064.8204
    + (-118009165327.71873) * n
    + 5296044666.7118 * n ^ 2
    + (-108419965.09400678) * n ^ 3
    + (-36793.31899267512) * n ^ 4
    + 62934.36386220135 * n ^ 5
    + (-1870.5197158547767) * n ^ 6
    + 31.376473743149806 * n ^ 7
    + (-0.3510150716459761) * n ^ 8
    + 0.002726493614147866 * n ^ 9
    + (-0.00001463272647792659) * n ^ 10
    + 0.00000005203375009496 * n ^ 11
    + (-0.00000000011071318044) * n ^ 12
    + 0.00000000000010697005 * n ^ 13

/-- Embeds `Aps3200ApuGenerator::calculate_frequency`; the source panics for
`n < 84`, modelled as `none`. -/
def Aps3200ApuGenerator.calculate_frequency (_g : Aps3200ApuGenerator) (n : ℚ) : Option ℚ :=
  if n < Aps3200ApuGenerator.APU_GEN_POWERED_N then
    none
  else if n < 100 then
    some (apuFreqPoly n)
  else
    some 400

/-- Embeds the trait impl `ApuGenerator::update` for `Aps3200ApuGenerator`.  `delta` is the tick's
elapsed time, `ridx` the random-index oracle for the voltage jitter sampler;
a propagated panic is `none`. -/
def Aps3200ApuGenerator.update (g : Aps3200ApuGenerator) (delta n : ℚ)
    (is_emergency_shutdown : Bool) (ridx : ℕ) : Option Aps3200ApuGenerator :=
  let g1 := { g with random_voltage := g.random_voltage.update delta ridx }
  let g2 := { g1 with
    output :=
      if is_emergency_shutdown || n < Aps3200ApuGenerator.APU_GEN_POWERED_N then
        Potential.none
      else
        Potential.apuGenerator g1.number }
  let current : ℚ := if g2.is_powered then 782.60 else 0
  match
      (if g2.is_powered then g2.calculate_potential n else some 0),
      (if g2.is_powered then g2.calculate_frequency n else some 0) with
  | some p, some f =>
      some { g2 with current := current, potential := p, frequency := f }
  | _, _ => none

/-- Embeds `ProvidePotential::potential_normal` for `Aps3200ApuGenerator`. -/
def Aps3200ApuGenerator.potential_normal (g : Aps3200ApuGenerator) : Bool :=
  decide (110 ≤ g.potential ∧ g.potential ≤ 120)

/-- Embeds `ProvideFrequency::frequency_normal` for `Aps3200ApuGenerator`. -/
def Aps3200ApuGenerator.frequency_normal (g : Aps3200ApuGenerator) : Bool :=
  decide (390 ≤ g.frequency ∧ g.frequency ≤ 410)

/-- Embeds `ProvideLoad::load` for `Aps3200ApuGenerator`. -/
def Aps3200ApuGenerator.load (_ : Aps3200ApuGenerator) : ℚ := 0

/-- Embeds `ProvideLoad::load_normal` for `Aps3200ApuGenerator`. -/
def Aps3200ApuGenerator.load_normal (_ : Aps3200ApuGenerator) : Bool :=
  true

/-! ## Turbine state machine -/

/-- The `Starting` state's payload. -/
structure StartingS where
  since : ℚ
  n : ℚ
  egt : ℚ
  ignore_calculated_egt : Bool
  deriving DecidableEq, Repr

/-- Embeds `Starting::new`. -/
def Starting.new (egt : ℚ) : StartingS :=
  { since := 0
    n := 0
    egt := egt
    ignore_calculated_egt := true }

/-- The 13-degree EGT calibration polynomial of `Starting::calculate_egt`
(coefficients `APU_N_TEMP_CONST` … `APU_N_TEMP_X13`), a function of the
current `n`. -/
def startingEgtPoly (n : ℚ) : ℚ :=
  (-92.3417137705543)
    + (-14.36417426895237) * n
    + 12.210567963472547 * n ^ 2
    + (-3.005504263233662) * n ^ 3
    + 0.3808066398934025 * n ^ 4
    + (-0.02679731462093699) * n ^ 5
    + 0.001163901295794232 * n ^ 6
    + (-0.0000332668380497951) * n ^ 7
    + 0.00000064601180727581 * n ^ 8
    + (-0.00000000859285727074) * n ^ 9
    + 0.00000000007717119413 * n ^ 10
    + (-0.00000000000044761099) * n ^ 11
    + 0.00000000000000151429 * n ^ 12
    + (-0.00000000000000000227) * n ^ 13

/-- Embeds `Starting::calculate_egt`: returns the reported EGT together with the
updated `ignore_calculated_egt` latch.  The source mutates the latch before
reading it to pick the reported value. -/
def StartingS.calculate_egt (s : StartingS) (delta ambient_temperature : ℚ) : ℚ × Bool :=
  let temperature := startingEgtPoly s.n
  let towards_ambient_egt := calculate_towards_ambient_egt s.egt delta ambient_temperature
  let ignore := if towards_ambient_egt < temperature then false else s.ignore_calculated_egt
  (if ignore then towards_ambient_egt else temperature, ignore)

/-- The 13-degree speed calibration polynomial of `Starting::calculate_n`
(coefficients `APU_N_CONST` … `APU_N_X13`), a function of the seconds since
ignition turned on. -/
def startingNPoly (t : ℚ) : ℚ :=
  (-0.08013606018640967)
    + 2.129832736394534 * t
    + 3.928273438786404 * t ^ 2
    + (-1.88613299921213) * t ^ 3
    + 0.42749452749180916 * t ^ 4
    + (-0.05757707967690426) * t ^ 5
    + 0.005022142795451004 * t ^ 6
    + (-0.00029612873626050866) * t ^ 7
    + 0.00001204152497871946 * t ^ 8
    + (-0.00000033829604438116) * t ^ 9
    + 0.00000000645140818528 * t ^ 10
    + (-0.00000000007974743535) * t ^ 11
    + 0.00000000000057654695 * t ^ 12
    + (-0.00000000000000185126) * t ^ 13

/-- Embeds `Starting::calculate_n`, as a function of `self.since` (its only input). -/
def Starting.calculate_n (since : ℚ) : ℚ :=
  let ignition_turned_on_secs := min (since - 1.5) 45.12
  if 0 < ignition_turned_on_secs then
    max (min (startingNPoly ignition_turned_on_secs) 100) 0
  else
    0

/-- Embeds `BleedAirUsageEgtDelta`. -/
structure BleedAirUsageEgtDelta where
  current : ℚ
  target : ℚ
  max : ℚ
  min : ℚ
  deriving DecidableEq, Repr

/-- Embeds `BleedAirUsageEgtDelta::new`; `rand` is the oracle for `random_number()`. -/
def BleedAirUsageEgtDelta.new (rand : ℕ) : BleedAirUsageEgtDelta :=
  let randomisation : ℚ := 0.95 + ((rand % 101 : ℕ) : ℚ) / 1000
  { current := 0
    target := 0
    max := 90 * randomisation
    min := 0 }

/-- The 8-degree approach-rate polynomial of
`BleedAirUsageEgtDelta::delta_per_second` (coefficients
`BLEED_AIR_DELTA_TEMP_CONST` … `BLEED_AIR_DELTA_TEMP_X8`), a function of the
distance between current and target. -/
def bleedAirDeltaPoly (difference : ℚ) : ℚ :=
  0.46763348242588143
    + 0.43114440400626697 * difference
    + (-0.11064487957454393) * difference ^ 2
    + 0.010414691679270397 * difference ^ 3
    + (-0.00045307219981909655) * difference ^ 4
    + 0.00001063664878607912 * difference ^ 5
    + (-0.00000013763963889674) * difference ^ 6
    + 0.00000000091837058563 * difference ^ 7
    + (-0.00000000000246054885) * difference ^ 8

/-- Embeds `BleedAirUsageEgtDelta::delta_per_second`. -/
def BleedAirUsageEgtDelta.delta_per_second (b : BleedAirUsageEgtDelta) : ℚ :=
  let difference := if b.target < b.current then b.current - b.target else b.target - b.current
  bleedAirDeltaPoly difference

/-- Embeds `BleedAirUsageEgtDelta::update`. -/
def BleedAirUsageEgtDelta.update (b : BleedAirUsageEgtDelta) (delta : ℚ)
    (apu_bleed_is_used : Bool) : BleedAirUsageEgtDelta :=
  let b1 := { b with target := if apu_bleed_is_used then b.max else b.min }
  let cur :=
    if epsF < |b1.current - b1.target| then
      if b1.target < b1.current then
        b1.current - b1.delta_per_second * delta
      else
        b1.current + b1.delta_per_second * delta
    else
      b1.current
  { b1 with current := Min.min (Max.max cur b1.min) b1.max }

/-- Embeds `BleedAirUsageEgtDelta::egt_delta`. -/
def BleedAirUsageEgtDelta.egt_delta (b : BleedAirUsageEgtDelta) : ℚ :=
  b.current

/-- Embeds `ApuGenUsageEgtDelta`; `time` is kept in seconds. -/
structure ApuGenUsageEgtDelta where
  time : ℚ
  base_egt_delta_per_second : ℚ
  deriving DecidableEq, Repr

/-- Embeds `ApuGenUsageEgtDelta::SECONDS_TO_REACH_TARGET`. -/
def ApuGenUsageEgtDelta.SECONDS_TO_REACH_TARGET : ℚ := 10

/-- Embeds `ApuGenUsageEgtDelta::new`; `rand` is the oracle for `random_number()`. -/
def ApuGenUsageEgtDelta.new (rand : ℕ) : ApuGenUsageEgtDelta :=
  { time := 0
    base_egt_delta_per_second :=
      (10 + ((rand % 6 : ℕ) : ℚ)) / ApuGenUsageEgtDelta.SECONDS_TO_REACH_TARGET }

/-- Embeds `ApuGenUsageEgtDelta::update`.  A `Duration` cannot be negative, so the
"off" branch saturates at zero. -/
def ApuGenUsageEgtDelta.update (a : ApuGenUsageEgtDelta) (delta : ℚ)
    (apu_gen_is_used : Bool) : ApuGenUsageEgtDelta :=
  { a with
    time :=
      if apu_gen_is_used then
        min (a.time + delta) ApuGenUsageEgtDelta.SECONDS_TO_REACH_TARGET
      else
        max (a.time - delta) 0 }

/-- Embeds `ApuGenUsageEgtDelta::egt_delta`. -/
def ApuGenUsageEgtDelta.egt_delta (a : ApuGenUsageEgtDelta) : ℚ :=
  a.time * a.base_egt_delta_per_second

/-- The `Running` state's payload. -/
structure RunningS where
  egt : ℚ
  base_egt : ℚ
  base_egt_deviation : ℚ
  bleed_air_usage : BleedAirUsageEgtDelta
  apu_gen_usage : ApuGenUsageEgtDelta
  deriving DecidableEq, Repr

/-- Embeds `Running::new`; the three `rand` arguments are the oracles for the three
`random_number()` draws (base EGT, bleed-air randomisation, generator-load
rate). -/
def Running.new (egt : ℚ) (randBase randBleed randGen : ℕ) : RunningS :=
  let base_egt : ℚ := 340 + ((randBase % 11 : ℕ) : ℚ)
  { egt := egt
    base_egt := base_egt
    base_egt_deviation := egt - base_egt
    bleed_air_usage := BleedAirUsageEgtDelta.new randBleed
    apu_gen_usage := ApuGenUsageEgtDelta.new randGen }

/-- Embeds `Running::calculate_egt`: returns the updated payload (deviation and both
usage models advanced) together with the target EGT the source returns. -/
def RunningS.calculate_egt (r : RunningS) (delta : ℚ)
    (apu_gen_is_used apu_bleed_is_used : Bool) : RunningS × ℚ :=
  let base_egt_deviation :=
    r.base_egt_deviation - min (delta * 1) r.base_egt_deviation
  let apu_gen_usage := r.apu_gen_usage.update delta apu_gen_is_used
  let bleed_air_usage := r.bleed_air_usage.update delta apu_bleed_is_used
  let target :=
    r.base_egt + base_egt_deviation + apu_gen_usage.egt_delta + bleed_air_usage.egt_delta
  ({ r with
      base_egt_deviation := base_egt_deviation
      apu_gen_usage := apu_gen_usage
      bleed_air_usage := bleed_air_usage }, target)

/-- The `Stopping` state's payload. -/
structure StoppingS where
  since : ℚ
  base_temperature : ℚ
  n : ℚ
  egt : ℚ
  deriving DecidableEq, Repr

/-- Embeds `Stopping::new`. -/
def Stopping.new (egt n : ℚ) : StoppingS :=
  { since := 0
    base_temperature := egt
    n := n
    egt := egt }

/-- The 12-degree EGT-delta calibration polynomial of
`Stopping::calculate_egt_delta` (coefficients `APU_N_TEMP_DELTA_CONST` …
`APU_N_TEMP_DELTA_X12`), a function of the current `n`. -/
def stoppingEgtDeltaPoly (n : ℚ) : ℚ :=
  (-125.73137672208446)
    + 2.7141683591219037 * n
    + (-0.8102923071483102) * n ^ 2
    + 0.08890509495240731 * n ^ 3
    + (-0.003509532681984154) * n ^ 4
    + (-0.00002709133732344767) * n ^ 5
    + 0.00000749250123766767 * n ^ 6
    + (-0.00000030306978045244) * n ^ 7
    + 0.00000000641099706269 * n ^ 8
    + (-0.00000000008068326110) * n ^ 9
    + 0.00000000000060754088 * n ^ 10
    + (-0.00000000000000253354) * n ^ 11
    + 0.00000000000000000451 * n ^ 12

/-- Embeds `Stopping::calculate_egt_delta`, as a function of `self.n`. -/
def Stopping.calculate_egt_delta (n : ℚ) : ℚ :=
  stoppingEgtDeltaPoly n

/-- The 11-degree spool-down calibration polynomial of
`Stopping::calculate_n` (coefficients `APU_N_CONST` … `APU_N_X11`), a
function of the (clamped) seconds since entering Stopping. -/
def stoppingNPoly (t : ℚ) : ℚ :=
  100.22975364965701
    + (-24.692008355859773) * t
    + 2.6116524551318787 * t ^ 2
    + 0.006812541903222142 * t ^ 3
    + (-0.03134644787752123) * t ^ 4
    + 0.0036345606954833213 * t ^ 5
    + (-0.00021794252200618456) * t ^ 6
    + 0.00000798097055109138 * t ^ 7
    + (-0.00000018481154462604) * t ^ 8
    + 0.00000000264691628669 * t ^ 9
    + (-0.00000000002143677577) * t ^ 10
    + 0.00000000000007515448 * t ^ 11

/-- Embeds `Stopping::calculate_n`, as a function of `self.since` (its only input). -/
def Stopping.calculate_n (since : ℚ) : ℚ :=
  let since := min since 49.411
  max (min (stoppingNPoly since) 100) 0

/-- The turbine as a tagged union of the four state payloads
(`Box<dyn Turbine>` in the source); `TurbineState::Shutdown`'s payload is
its EGT (`ShutdownAps3200Turbine`). -/
inductive Turbine where
  | shutdown (egt : ℚ)
  | starting (s : StartingS)
  | running (r : RunningS)
  | stopping (s : StoppingS)
  deriving DecidableEq, Repr

/-- Embeds `<ShutdownAps3200Turbine as Turbine>::update`. -/
def Shutdown.update (egt delta ambient_temperature : ℚ) (should_start : Bool) : Turbine :=
  let egt := calculate_towards_ambient_egt egt delta ambient_temperature
  if should_start then
    Turbine.starting (Starting.new egt)
  else
    Turbine.shutdown egt

/-- The in-state part of `<Starting as Turbine>::update`: advance `since`,
recompute `n` and the EGT/latch pair.  The transition check of the source is
layered on top in `StartingS.update`. -/
def StartingS.tick (s : StartingS) (delta ambient_temperature : ℚ) : StartingS :=
  let s1 := { s with since := s.since + delta }
  let s2 := { s1 with n := Starting.calculate_n s1.since }
  let (egt, ignore) := s2.calculate_egt delta ambient_temperature
  { s2 with egt := egt, ignore_calculated_egt := ignore }

/-- Embeds `<Starting as Turbine>::update`.  The `rand` oracles feed
`Running::new` when the turbine reaches 100 %. -/
def StartingS.update (s : StartingS) (delta ambient_temperature : ℚ)
    (should_stop : Bool) (randBase randBleed randGen : ℕ) : Turbine :=
  let s := s.tick delta ambient_temperature
  if should_stop then
    Turbine.stopping (Stopping.new s.egt s.n)
  else if |s.n - 100| < epsF then
    Turbine.running (Running.new s.egt randBase randBleed randGen)
  else
    Turbine.starting s

/-- Embeds `<Running as Turbine>::update`. -/
def RunningS.update (r : RunningS) (delta : ℚ)
    (apu_bleed_is_used apu_gen_is_used should_stop : Bool) : Turbine :=
  let (r1, egt) := r.calculate_egt delta apu_gen_is_used apu_bleed_is_used
  let r2 := { r1 with egt := egt }
  if should_stop then
    Turbine.stopping (Stopping.new r2.egt 100)
  else
    Turbine.running r2

/-- Embeds `<Stopping as Turbine>::update`. -/
def StoppingS.update (s : StoppingS) (delta : ℚ) : Turbine :=
  let since := s.since + delta
  let n := Stopping.calculate_n since
  let egt := s.base_temperature + Stopping.calculate_egt_delta n
  if n = 0 then
    Turbine.shutdown egt
  else
    Turbine.stopping { since := since, base_temperature := s.base_temperature, n := n, egt := egt }

/-- Fold of `StartingS.tick` over a list of `(delta, ambient)` ticks — one
Starting episode observed over several simulation ticks. -/
def StartingS.runTicks (s : StartingS) (ticks : List (ℚ × ℚ)) : StartingS :=
  ticks.foldl (fun s t => s.tick t.1 t.2) s

/-! ## Theorems -/

/-- Closed form of the generator update: it always succeeds, and the record
it produces is determined by the powered predicate and the `85`/`100`
thresholds. -/
theorem Aps3200ApuGenerator.update_eq (g : Aps3200ApuGenerator) (delta n : ℚ)
    (emerg : Bool) (ridx : ℕ) :
    g.update delta n emerg ridx =
      (if emerg = true ∨ n < 84 then
        some { g with
          random_voltage := g.random_voltage.update delta ridx
          output := Potential.none
          current := 0
          potential := 0
          frequency := 0 }
      else
        some { g with
          random_voltage := g.random_voltage.update delta ridx
          output := Potential.apuGenerator g.number
          current := 782.60
          potential :=
            if n < 85 then 105 else (g.random_voltage.update delta ridx).current_value
          frequency := if n < 100 then apuFreqPoly n else 400 }) := by
  unfold Aps3200ApuGenerator.update Aps3200ApuGenerator.calculate_potential
    Aps3200ApuGenerator.calculate_frequency Aps3200ApuGenerator.is_powered
    Aps3200ApuGenerator.APU_GEN_POWERED_N Potential.is_powered
  by_cases he : emerg = true <;> by_cases h84 : n < 84 <;>
    by_cases h85 : n < 85 <;> by_cases h100 : n < 100 <;>
    simp [he, h84, h85, h100]

/-- The jitter sampler never changes its candidate set or its interval. -/
theorem TimedRandom.update_fields (t : TimedRandom) (delta : ℚ) (ridx : ℕ) :
    (t.update delta ridx).candidates = t.candidates ∧
    (t.update delta ridx).interval = t.interval := by
  unfold TimedRandom.update
  dsimp only
  split <;> exact ⟨rfl, rfl⟩

/-- The jitter sampler's selected value stays within the candidate set. -/
theorem TimedRandom.update_value_mem (t : TimedRandom) (delta : ℚ) (ridx : ℕ)
    (h : t.value ∈ t.candidates) : (t.update delta ridx).value ∈ t.candidates := by
  unfold TimedRandom.update
  dsimp only
  split
  · dsimp only
    rcases Nat.eq_zero_or_pos t.candidates.length with hl | hl
    · rw [List.getD_eq_default _ _ (by omega)]
      exact h
    · have hlt : ridx % t.candidates.length < t.candidates.length := Nat.mod_lt _ hl
      rw [List.getD_eq_getElem _ _ hlt]
      exact List.getElem_mem hlt
  · exact h

/-- C1: after `Aps3200ApuGenerator::update` the generator is powered iff
`N ≥ 84 %` and the emergency-shutdown flag is false, and whenever it is
unpowered its potential, frequency and current are all zero. -/
theorem c1_generator_powered_iff (g : Aps3200ApuGenerator) (delta n : ℚ)
    (emerg : Bool) (ridx : ℕ) :
    ∃ g', g.update delta n emerg ridx = some g' ∧
      (g'.is_powered = true ↔ (84 ≤ n ∧ emerg = false)) ∧
      (g'.is_powered = false →
        g'.potential = 0 ∧ g'.frequency = 0 ∧ g'.current = 0) := by
  rw [Aps3200ApuGenerator.update_eq]
  by_cases h : emerg = true ∨ n < 84
  · rw [if_pos h]
    refine ⟨_, rfl, ?_, fun _ => ⟨rfl, rfl, rfl⟩⟩
    constructor
    · intro hp
      exact absurd hp (by simp [Aps3200ApuGenerator.is_powered, Potential.is_powered])
    · rintro ⟨hn, hem⟩
      rcases h with h | h
      · rw [hem] at h
        cases h
      · exact absurd hn (not_le.mpr h)
  · rw [if_neg h]
    push_neg at h
    refine ⟨_, rfl, ?_, ?_⟩
    · constructor
      · intro _
        exact ⟨h.2, by simpa using h.1⟩
      · intro _
        rfl
    · intro hp
      simp [Aps3200ApuGenerator.is_powered, Potential.is_powered] at hp

/-- C9: `Aps3200ApuGenerator::update` never aborts — for every speed ratio
(including `N < 84 %`) and every emergency-shutdown flag, the update
produces a result, because the panicking formulas are only reached on the
powered branch. -/
theorem c9_update_never_aborts (g : Aps3200ApuGenerator) (delta n : ℚ)
    (emerg : Bool) (ridx : ℕ) :
    (g.update delta n emerg ridx).isSome = true := by
  rw [Aps3200ApuGenerator.update_eq]
  split <;> rfl

/-- C3: on a powered update, the stored frequency is the 13-degree ramp
polynomial of `N` while `84 ≤ N < 100`, and exactly 400 Hz for `N ≥ 100`. -/
theorem c3_frequency_formula (g : Aps3200ApuGenerator) (delta n : ℚ) (ridx : ℕ)
    (hn : 84 ≤ n) :
    ∃ g', g.update delta n false ridx = some g' ∧
      (n < 100 → g'.frequency = apuFreqPoly n) ∧
      (100 ≤ n → g'.frequency = 400) := by
  rw [Aps3200ApuGenerator.update_eq]
  rw [if_neg (by
    rintro (h | h)
    · cases h
    · exact absurd hn (not_le.mpr h))]
  refine ⟨_, rfl, ?_, ?_⟩
  · intro h
    simp only [if_pos h]
  · intro h
    simp only [if_neg (not_lt.mpr h)]

/-- Witness for C3 at `N = 100`: the powered update stores exactly 400 Hz. -/
theorem c3_frequency_formula_witness :
    (84 : ℚ) ≤ 100 ∧
    ∃ g', (Aps3200ApuGenerator.new 1).update 1 100 false 0 = some g' ∧
      g'.frequency = 400 := by
  refine ⟨by norm_num, ?_⟩
  obtain ⟨g', h1, _, h3⟩ :=
    c3_frequency_formula (Aps3200ApuGenerator.new 1) 1 100 0 (by norm_num)
  exact ⟨g', h1, h3 le_rfl⟩

/-- C4: both electrical formulas abort (panic) for `N < 84` and return a
value for every `N ≥ 84`. -/
theorem c4_formulas_abort_below_84 (g : Aps3200ApuGenerator) (n : ℚ) :
    (n < 84 →
      g.calculate_potential n = none ∧ g.calculate_frequency n = none) ∧
    (84 ≤ n →
      (g.calculate_potential n).isSome = true ∧
      (g.calculate_frequency n).isSome = true) := by
  unfold Aps3200ApuGenerator.calculate_potential Aps3200ApuGenerator.calculate_frequency
    Aps3200ApuGenerator.APU_GEN_POWERED_N
  constructor
  · intro h
    rw [if_pos h, if_pos h]
    exact ⟨rfl, rfl⟩
  · intro h
    rw [if_neg (not_lt.mpr h), if_neg (not_lt.mpr h)]
    constructor <;> split <;> rfl

/-- Witness for C4 at `N = 50` (abort) and `N = 84` (no abort). -/
theorem c4_formulas_abort_below_84_witness :
    ((50 : ℚ) < 84 ∧
      (Aps3200ApuGenerator.new 1).calculate_potential 50 = none ∧
      (Aps3200ApuGenerator.new 1).calculate_frequency 50 = none) ∧
    ((84 : ℚ) ≤ 84 ∧
      ((Aps3200ApuGenerator.new 1).calculate_potential 84).isSome = true ∧
      ((Aps3200ApuGenerator.new 1).calculate_frequency 84).isSome = true) := by
  constructor
  · exact ⟨by norm_num,
      (c4_formulas_abort_below_84 (Aps3200ApuGenerator.new 1) 50).1 (by norm_num)⟩
  · exact ⟨le_refl _,
      (c4_formulas_abort_below_84 (Aps3200ApuGenerator.new 1) 84).2 (le_refl _)⟩

/-- C2: the generator's sampler is created with candidate set
`{114, 115, 115, 115, 115}` and a 1-second interval, both preserved by every
update; on a powered update the stored potential is exactly 105 V for
`84 ≤ N < 85` and, for `N ≥ 85`, the sampler's currently selected value,
which always lies in `[114, 115]` V. -/
theorem c2_potential_formula (k : ℕ) (g : Aps3200ApuGenerator) (delta n : ℚ)
    (ridx : ℕ)
    (hset : g.random_voltage.candidates = [114, 115, 115, 115, 115])
    (hmem : g.random_voltage.value ∈ g.random_voltage.candidates)
    (hn : 84 ≤ n) :
    (Aps3200ApuGenerator.new k).random_voltage =
      TimedRandom.new 1 [114, 115, 115, 115, 115] ∧
    ∃ g', g.update delta n false ridx = some g' ∧
      g'.random_voltage.candidates = [114, 115, 115, 115, 115] ∧
      g'.random_voltage.interval = g.random_voltage.interval ∧
      g'.random_voltage.value ∈ g'.random_voltage.candidates ∧
      (n < 85 → g'.potential = 105) ∧
      (85 ≤ n → g'.potential = g'.random_voltage.current_value ∧
        114 ≤ g'.potential ∧ g'.potential ≤ 115) := by
  refine ⟨rfl, ?_⟩
  have hcand := (TimedRandom.update_fields g.random_voltage delta ridx).1
  have hint := (TimedRandom.update_fields g.random_voltage delta ridx).2
  have hmem' := TimedRandom.update_value_mem g.random_voltage delta ridx hmem
  rw [Aps3200ApuGenerator.update_eq]
  rw [if_neg (by
    rintro (h | h)
    · cases h
    · exact absurd hn (not_le.mpr h))]
  refine ⟨_, rfl, hcand.trans hset, hint, by rw [hcand]; exact hmem', ?_, ?_⟩
  · intro h
    simp only [if_pos h]
  · intro h
    rw [if_neg (not_lt.mpr h)]
    rw [hset] at hmem'
    refine ⟨rfl, ?_, ?_⟩ <;>
      · simp only [List.mem_cons, List.not_mem_nil, or_false] at hmem'
        rcases hmem' with h' | h' | h' | h' | h' <;>
          rw [TimedRandom.current_value, h'] <;> norm_num

/-- Witness for C2 at `N = 90` on a freshly constructed generator. -/
theorem c2_potential_formula_witness :
    (Aps3200ApuGenerator.new 1).random_voltage.candidates = [114, 115, 115, 115, 115] ∧
    (Aps3200ApuGenerator.new 1).random_voltage.value ∈
      (Aps3200ApuGenerator.new 1).random_voltage.candidates ∧
    (84 : ℚ) ≤ 90 ∧
    ∃ g', (Aps3200ApuGenerator.new 1).update 1 90 false 0 = some g' ∧
      114 ≤ g'.potential ∧ g'.potential ≤ 115 := by
  refine ⟨rfl, by decide, by norm_num, ?_⟩
  obtain ⟨-, g', h1, -, -, -, -, h6⟩ :=
    c2_potential_formula 1 (Aps3200ApuGenerator.new 1) 1 90 0 rfl (by decide)
      (by norm_num)
  exact ⟨g', h1, (h6 (by norm_num)).2⟩

/-- C8: `potential_normal` holds iff the stored potential is in
`[110, 120]` V, `frequency_normal` holds iff the stored frequency is in
`[390, 410]` Hz, `load_normal` is always true, and after an unpowered update
both normal predicates are false. -/
theorem c8_normal_range_predicates (g : Aps3200ApuGenerator) :
    (g.potential_normal = true ↔ (110 ≤ g.potential ∧ g.potential ≤ 120)) ∧
    (g.frequency_normal = true ↔ (390 ≤ g.frequency ∧ g.frequency ≤ 410)) ∧
    g.load_normal = true ∧
    (∀ delta n emerg ridx g', g.update delta n emerg ridx = some g' →
      g'.is_powered = false →
      g'.potential_normal = false ∧ g'.frequency_normal = false) := by
  refine ⟨by simp [Aps3200ApuGenerator.potential_normal],
    by simp [Aps3200ApuGenerator.frequency_normal], rfl, ?_⟩
  intro delta n emerg ridx g' hup hp
  rw [Aps3200ApuGenerator.update_eq] at hup
  by_cases h : emerg = true ∨ n < 84
  · rw [if_pos h] at hup
    obtain rfl := Option.some.inj hup
    constructor <;> norm_num [Aps3200ApuGenerator.potential_normal,
      Aps3200ApuGenerator.frequency_normal]
  · rw [if_neg h] at hup
    obtain rfl := Option.some.inj hup
    simp [Aps3200ApuGenerator.is_powered, Potential.is_powered] at hp

/-- Witness for C8: an update at `N = 0` leaves the generator unpowered with
both normal predicates false. -/
theorem c8_normal_range_predicates_witness :
    ∃ g', (Aps3200ApuGenerator.new 1).update 1 0 false 0 = some g' ∧
      g'.is_powered = false ∧
      g'.potential_normal = false ∧ g'.frequency_normal = false := by
  have heq := Aps3200ApuGenerator.update_eq (Aps3200ApuGenerator.new 1) 1 0 false 0
  rw [if_pos (Or.inr (by norm_num))] at heq
  exact ⟨_, heq, rfl,
    (c8_normal_range_predicates (Aps3200ApuGenerator.new 1)).2.2.2 1 0 false 0 _ heq rfl⟩

/-- Witness for C1 at `N = 100` (powered) and `N = 50` (unpowered, all
outputs zero). -/
theorem c1_generator_powered_iff_witness :
    (∃ g', (Aps3200ApuGenerator.new 1).update 1 100 false 0 = some g' ∧
      g'.is_powered = true) ∧
    (∃ g', (Aps3200ApuGenerator.new 1).update 1 50 false 0 = some g' ∧
      g'.is_powered = false ∧
      g'.potential = 0 ∧ g'.frequency = 0 ∧ g'.current = 0) := by
  constructor
  · obtain ⟨g', h1, h2, -⟩ :=
      c1_generator_powered_iff (Aps3200ApuGenerator.new 1) 1 100 false 0
    exact ⟨g', h1, h2.mpr ⟨by norm_num, rfl⟩⟩
  · obtain ⟨g', h1, h2, h3⟩ :=
      c1_generator_powered_iff (Aps3200ApuGenerator.new 1) 1 50 false 0
    have hp : g'.is_powered = false := by
      cases hb : g'.is_powered
      · rfl
      · exact absurd (h2.mp hb).1 (by norm_num)
    obtain ⟨hq, hf, hc⟩ := h3 hp
    exact ⟨g', h1, hp, hq, hf, hc⟩

/-- C5: the Starting-state speed is zero until the 1.5 s ignition delay has
passed, afterwards it is the 13-degree polynomial of the elapsed time with
its argument clamped at 45.12 s before evaluation and its result clamped to
`[0, 100]`; in particular the value is constant once the clamp engages. -/
theorem c5_starting_n (since : ℚ) :
    (since ≤ 1.5 → Starting.calculate_n since = 0) ∧
    (1.5 < since →
      Starting.calculate_n since =
        max (min (startingNPoly (min (since - 1.5) 45.12)) 100) 0) ∧
    (0 ≤ Starting.calculate_n since ∧ Starting.calculate_n since ≤ 100) ∧
    (46.62 ≤ since → Starting.calculate_n since = Starting.calculate_n 46.62) := by
  unfold Starting.calculate_n
  dsimp only
  refine ⟨?_, ?_, ?_, ?_⟩
  · intro h
    rw [if_neg]
    push_neg
    calc min (since - 1.5) 45.12 ≤ since - 1.5 := min_le_left _ _
      _ ≤ 0 := by linarith
  · intro h
    rw [if_pos (lt_min (by linarith) (by norm_num))]
  · constructor
    · split
      · exact le_max_right _ _
      · exact le_rfl
    · split
      · exact max_le (min_le_right _ _) (by norm_num)
      · norm_num
  · intro h
    have h1 : min (since - 1.5) 45.12 = 45.12 := min_eq_right (by linarith)
    have h2 : min ((46.62 : ℚ) - 1.5) 45.12 = 45.12 := by norm_num
    rw [h1, h2]

/-- Witness for C5 at `since = 1` (still zero) and `since = 50`
(clamp engaged, value equal to the one at 46.62 s). -/
theorem c5_starting_n_witness :
    ((1 : ℚ) ≤ 1.5 ∧ Starting.calculate_n 1 = 0) ∧
    ((46.62 : ℚ) ≤ 50 ∧ Starting.calculate_n 50 = Starting.calculate_n 46.62) := by
  constructor
  · exact ⟨by norm_num, (c5_starting_n 1).1 (by norm_num)⟩
  · exact ⟨by norm_num, (c5_starting_n 50).2.2.2 (by norm_num)⟩

/-- The tick function of the Starting state keeps the latch released once it
is released, and then reports the polynomial EGT. -/
theorem StartingS.tick_released (s : StartingS) (d a : ℚ)
    (h : s.ignore_calculated_egt = false) :
    (s.tick d a).ignore_calculated_egt = false ∧
    (s.tick d a).egt = startingEgtPoly ((s.tick d a).n) := by
  unfold StartingS.tick StartingS.calculate_egt
  dsimp only
  rw [h]
  constructor <;> simp [ite_self]

theorem StartingS.runTicks_nil (s : StartingS) : s.runTicks [] = s := rfl

theorem StartingS.runTicks_cons (s : StartingS) (t : ℚ × ℚ) (ts : List (ℚ × ℚ)) :
    s.runTicks (t :: ts) = (s.tick t.1 t.2).runTicks ts := rfl

/-- C6: in a Starting episode the EGT latch starts engaged; while engaged and
the polynomial does not exceed the ambient convergence value, the convergence
value is reported; on the first tick where the polynomial exceeds it, the
latch releases and the polynomial value is reported; and once released it
stays released, every later tick reporting the polynomial value. -/
theorem c6_egt_latch :
    (∀ e, (Starting.new e).ignore_calculated_egt = true) ∧
    (∀ (s : StartingS) (delta ambient : ℚ), s.ignore_calculated_egt = true →
      ¬ calculate_towards_ambient_egt s.egt delta ambient < startingEgtPoly s.n →
      s.calculate_egt delta ambient =
        (calculate_towards_ambient_egt s.egt delta ambient, true)) ∧
    (∀ (s : StartingS) (delta ambient : ℚ),
      calculate_towards_ambient_egt s.egt delta ambient < startingEgtPoly s.n →
      s.calculate_egt delta ambient = (startingEgtPoly s.n, false)) ∧
    (∀ (s : StartingS) (delta ambient : ℚ), s.ignore_calculated_egt = false →
      s.calculate_egt delta ambient = (startingEgtPoly s.n, false)) ∧
    (∀ (s : StartingS) (ticks : List (ℚ × ℚ)), s.ignore_calculated_egt = false →
      (s.runTicks ticks).ignore_calculated_egt = false ∧
      (ticks ≠ [] →
        (s.runTicks ticks).egt = startingEgtPoly ((s.runTicks ticks).n))) := by
  refine ⟨fun _ => rfl, ?_, ?_, ?_, ?_⟩
  · intro s delta ambient h hc
    unfold StartingS.calculate_egt
    dsimp only
    rw [if_neg hc, h]
    rfl
  · intro s delta ambient hc
    unfold StartingS.calculate_egt
    dsimp only
    rw [if_pos hc]
    rfl
  · intro s delta ambient h
    unfold StartingS.calculate_egt
    dsimp only
    rw [h, ite_self]
    rfl
  · intro s ticks
    induction ticks generalizing s with
    | nil =>
        intro h
        exact ⟨h, fun hne => absurd rfl hne⟩
    | cons t ts ih =>
        intro h
        have ht := StartingS.tick_released s t.1 t.2 h
        have hrec := ih (s.tick t.1 t.2) ht.1
        rw [StartingS.runTicks_cons]
        refine ⟨hrec.1, fun _ => ?_⟩
        cases ts with
        | nil => rw [StartingS.runTicks_nil]; exact ht.2
        | cons t2 ts2 => exact hrec.2 (by simp)

/-- Witness for C6: a fresh episode starts latched; a released state reports
the polynomial EGT on the next tick and stays released over a run. -/
theorem c6_egt_latch_witness :
    (Starting.new 0).ignore_calculated_egt = true ∧
    (StartingS.mk 0 0 0 false).calculate_egt 1 15 = (startingEgtPoly 0, false) ∧
    ((StartingS.mk 0 0 0 false).runTicks [(1, 15)]).ignore_calculated_egt = false := by
  refine ⟨c6_egt_latch.1 0, ?_, (c6_egt_latch.2.2.2.2 _ [(1, 15)] rfl).1⟩
  exact c6_egt_latch.2.2.2.1 (StartingS.mk 0 0 0 false) 1 15 rfl

/-- C7: a Stopping update whose (clamped) speed reaches exactly 0 % hands
over to Shutdown carrying the EGT computed on that very tick; any update
with positive speed stays in Stopping. -/
theorem c7_stopping_to_shutdown (s : StoppingS) (delta : ℚ) :
    0 ≤ Stopping.calculate_n (s.since + delta) ∧
    (Stopping.calculate_n (s.since + delta) = 0 →
      s.update delta = Turbine.shutdown
        (s.base_temperature +
          Stopping.calculate_egt_delta (Stopping.calculate_n (s.since + delta)))) ∧
    (0 < Stopping.calculate_n (s.since + delta) →
      s.update delta = Turbine.stopping
        (StoppingS.mk (s.since + delta) s.base_temperature
          (Stopping.calculate_n (s.since + delta))
          (s.base_temperature +
            Stopping.calculate_egt_delta (Stopping.calculate_n (s.since + delta))))) := by
  refine ⟨?_, ?_, ?_⟩
  · unfold Stopping.calculate_n
    dsimp only
    exact le_max_right _ _
  · intro h
    unfold StoppingS.update
    dsimp only
    rw [if_pos h, h]
  · intro h
    unfold StoppingS.update
    dsimp only
    rw [if_neg (ne_of_gt h)]

/-- Witness for C7: entering the 49.411 s clamp gives `N = 0` and a Shutdown
successor; at `since = 0` the speed is positive and the state remains
Stopping. -/
theorem c7_stopping_to_shutdown_witness :
    (Stopping.calculate_n ((49.411 : ℚ) + 0) = 0 ∧
      (StoppingS.mk 49.411 300 1 300).update 0 =
        Turbine.shutdown
          (300 + Stopping.calculate_egt_delta (Stopping.calculate_n ((49.411 : ℚ) + 0)))) ∧
    (0 < Stopping.calculate_n ((0 : ℚ) + 0) ∧
      (StoppingS.mk 0 300 100 300).update 0 =
        Turbine.stopping
          (StoppingS.mk ((0 : ℚ) + 0) 300 (Stopping.calculate_n ((0 : ℚ) + 0))
            (300 + Stopping.calculate_egt_delta (Stopping.calculate_n ((0 : ℚ) + 0))))) := by
  have h1 : Stopping.calculate_n ((49.411 : ℚ) + 0) = 0 := by
    norm_num [Stopping.calculate_n, stoppingNPoly, min_def, max_def]
  have h2 : 0 < Stopping.calculate_n ((0 : ℚ) + 0) := by
    norm_num [Stopping.calculate_n, stoppingNPoly, min_def, max_def]
  exact ⟨⟨h1, (c7_stopping_to_shutdown (StoppingS.mk 49.411 300 1 300) 0).2.1 h1⟩,
    ⟨h2, (c7_stopping_to_shutdown (StoppingS.mk 0 300 100 300) 0).2.2 h2⟩⟩

/-- C10: the Running entry deviation is the entry EGT minus the randomized
base EGT, and after every `calculate_egt` with non-negative elapsed time the
deviation is non-negative — the decrement is capped at the remaining
deviation, and a negative entry deviation is set to exactly zero. -/
theorem c10_deviation_nonneg (r : RunningS) (delta : ℚ) (gu bu : Bool)
    (hd : 0 ≤ delta) :
    (∀ (egt : ℚ) (rb rl rg : ℕ),
      (Running.new egt rb rl rg).base_egt_deviation =
        egt - (340 + ((rb % 11 : ℕ) : ℚ))) ∧
    0 ≤ ((r.calculate_egt delta gu bu).1).base_egt_deviation ∧
    (r.base_egt_deviation < 0 →
      ((r.calculate_egt delta gu bu).1).base_egt_deviation = 0) := by
  refine ⟨fun _ _ _ _ => rfl, ?_, ?_⟩
  · unfold RunningS.calculate_egt
    dsimp only
    rcases le_or_lt 0 r.base_egt_deviation with h | h
    · have hmin : min (delta * 1) r.base_egt_deviation ≤ r.base_egt_deviation :=
        min_le_right _ _
      linarith
    · have hmin : min (delta * 1) r.base_egt_deviation = r.base_egt_deviation :=
        min_eq_right (by linarith)
      rw [hmin]
      simp
  · intro h
    unfold RunningS.calculate_egt
    dsimp only
    have hmin : min (delta * 1) r.base_egt_deviation = r.base_egt_deviation :=
      min_eq_right (by linarith)
    rw [hmin]
    ring

/-- Witness for C10: entering Running at 335 °C against a base of 340 °C
gives deviation −5, and the first one-second update sets it to exactly 0. -/
theorem c10_deviation_nonneg_witness :
    (0 : ℚ) ≤ 1 ∧ (Running.new 335 0 0 0).base_egt_deviation < 0 ∧
    (((Running.new 335 0 0 0).calculate_egt 1 false false).1).base_egt_deviation = 0 := by
  have hneg : (Running.new 335 0 0 0).base_egt_deviation < 0 := by
    norm_num [Running.new]
  exact ⟨by norm_num, hneg,
    (c10_deviation_nonneg (Running.new 335 0 0 0) 1 false false (by norm_num)).2.2 hneg⟩

end APS3200
